import Mathlib

/-!
Shallow embedding of the conan-build crate (src/lib.rs).

The crate reads `conanbuildinfo.json` manifests produced by the conan
package manager, classifies the library artifacts found in the manifests'
library directories as statically or dynamically linked, resolves
requested packages into linker directives, and emits `env.sh` / `env.ps1`
environment scripts.

Modelling conventions:
* Rust strings are modelled as Lean `String` (a structure over
  `List Char`); the byte-index slicing done by the Rust code only ever
  splits at ASCII boundaries, so char-level operations are faithful.
  String manipulation is implemented over `String.data` so that every
  definition reduces in the kernel.
* Filesystem paths are lists of path components (`Path := List String`);
  `PathBuf::pop`/`push`/`join` become `dropLast`/append.
* The process environment (filesystem contents, `std::env::vars`, and
  the external `serde_json` parser) is a record of functions, `Sys`,
  passed explicitly.
* Fallible Rust code is `Except RtError`; `RtError.panic` models the
  unwinding of `unwrap` / `expect` / panicking macros, `RtError.ioErr`
  models `io::Error` values travelling through `io::Result`.
* Rust `HashMap` built by repeated `insert` (or `collect`) is modelled
  as an association list with last-write-wins `upsert`; iteration order
  of a Rust `HashMap` is unspecified, the model fixes insertion order,
  which no theorem below depends on.
-/

namespace ConanBuild

/-- JSON values, mirroring `serde_json::Value` (numbers are irrelevant to
this crate's behaviour and are carried as `Int`). -/
inductive Value where
  | null
  | bool (b : Bool)
  | num (n : Int)
  | str (s : String)
  | arr (xs : List Value)
  | obj (fields : List (String × Value))

/-- Association-list lookup (models `HashMap::get` and
`serde_json::Map::get`). -/
def alookup (t : String) : List (String × α) → Option α
  | [] => none
  | (k, v) :: rest => if k = t then some v else alookup t rest

/-- `value[key]` indexing of `serde_json::Value`: returns `Null` when the
key is absent or the value is not an object. -/
def Value.getIdx : Value → String → Value
  | .obj fields, k => (alookup k fields).getD .null
  | _, _ => .null

/-- `Value::as_str`. -/
def Value.asStr : Value → Option String
  | .str s => some s
  | _ => none

/-- `Value::as_array`. -/
def Value.asArray : Value → Option (List Value)
  | .arr xs => some xs
  | _ => none

/-- `Value::as_object` (field list of an object). -/
def Value.asObject : Value → Option (List (String × Value))
  | .obj fields => some fields
  | _ => none

/-- How a Rust computation can fail: a panic (`unwrap`/`expect`/`panic`)
or an `io::Error` carried inside `io::Result`. -/
inductive RtError where
  | panic (msg : String)
  | ioErr (msg : String)
deriving Repr, DecidableEq

abbrev Rt (α : Type) := Except RtError α

/-- `Option::unwrap` / `Option::expect`: a missing value panics. -/
def unwrapD (msg : String) : Option α → Rt α
  | some a => .ok a
  | none => .error (.panic msg)

/-- A filesystem path as its list of components. -/
abbrev Path := List String

/-- Split a path string on `/` into components (models `Path::new` /
`PathBuf::from` on the strings stored in the manifest). -/
def pathOfString (s : String) : Path :=
  ((s.data.splitOn '/').map (fun cs => String.mk cs)).filter (fun c => c ≠ "")

/-- Render a path for display (`to_string_lossy`). -/
def renderPath (p : Path) : String :=
  String.mk (String.intercalate "/" p).data

/-- `str::replace(c, r)` with a single-character pattern. -/
def replaceChar (c : Char) (r : List Char) (s : String) : String :=
  String.mk (s.data.flatMap (fun x => if x = c then r else [x]))

/-- Link kind of a library artifact (Rust `enum Link`). -/
inductive Link where
  | static
  | shared
deriving Repr, DecidableEq

/-- The ambient process state and external collaborators, passed
explicitly: file reads, directory listings, existence probes, the
`serde_json` parser (external crate, modelled at its boundary:
`none` = invalid JSON), and the environment variables. -/
structure Sys where
  readFile : Path → Except String String
  readDir : Path → Except String (List String)
  pathExists : Path → Bool
  parseJson : String → Option Value
  vars : List (String × String)

/-- Insert with last-write-wins replacement: `HashMap::insert` /
collecting an iterator of pairs into a `HashMap`. -/
def upsert (k : String) (v : α) : List (String × α) → List (String × α)
  | [] => [(k, v)]
  | (k', v') :: rest => if k' = k then (k, v) :: rest else (k', v') :: upsert k v rest

/-- Index (from the front) of the last `'.'` in a character list, i.e.
Rust `str::rfind('.')`. -/
def lastDotIdx : List Char → Option Nat
  | [] => none
  | c :: rest =>
    match lastDotIdx rest with
    | some i => some (i + 1)
    | none => if c = '.' then some 0 else none

/-- The manifest filename constant `BUILD_INFO`. -/
def BUILD_INFO : String := "conanbuildinfo.json"

/-- Bare-name normalisation of the Unix branch of `find_all_libs`:
strip a leading `"lib"` prefix, then strip from the last `'.'` on. -/
def normalizeLib (fname : List Char) : List Char :=
  let l := if "lib".data.isPrefixOf fname then fname.drop 3 else fname
  match lastDotIdx l with
  | some i => l.take i
  | none => l

/-- Classification of one directory entry, the body of the closure in
`find_all_libs` (src/lib.rs:444-488).  `dir` is the library directory
the entry lives in, `fname` the entry's filename.  Returns `none` when
the entry is not a recognised library artifact. -/
def classify_file (sys : Sys) (dir : Path) (fname : List Char) : Option (List Char × Link) :=
  if ".lib".data.isSuffixOf fname then
    let bare := fname.take (fname.length - 4)
    let dll := dir.dropLast ++ ["bin", String.mk (bare ++ ".dll".data)]
    some (bare, if sys.pathExists dll then .shared else .static)
  else if ".so".data.isSuffixOf fname then
    some (normalizeLib fname, .shared)
  else if ".a".data.isSuffixOf fname then
    some (normalizeLib fname, .static)
  else
    none

/-- `BuildInfo::libdir_for_package`: the `lib_paths` array of a package
descriptor as strings (`unwrap` panics modelled in `Rt`). -/
def libdir_for_package (value : Value) : Rt (List String) := do
  let arr ← unwrapD "lib_paths is not an array" (value.getIdx "lib_paths").asArray
  arr.mapM (fun lib => unwrapD "lib_path is not a string" lib.asStr)

/-- `find_all_libs` (src/lib.rs:432-498): scan every package's library
directories and build the bare-name → link-kind map.  Unreadable
directories are contextualised I/O errors that abort the scan. -/
def find_all_libs (sys : Sys) (it : List (String × Value)) : Rt (List (String × Link)) :=
  it.foldlM (fun result kv => do
    let paths ← libdir_for_package kv.2
    paths.foldlM (fun res path =>
      match sys.readDir (pathOfString path) with
      | .error e => .error (.ioErr ("Failure reading dir " ++ path ++ ": " ++ e))
      | .ok entries =>
        .ok (entries.foldl (fun r fname =>
          match classify_file sys (pathOfString path) fname.data with
          | some kl => upsert (String.mk kl.1) kl.2 r
          | none => r) res)) result) []

/-- `fn build_info(root)` (src/lib.rs:420-430): key each entry of the
`dependencies` array by its `name` field; duplicate names: last wins. -/
def build_info (root : Value) : Rt (List (String × Value)) := do
  let deps ← unwrapD "dependencies is not an array" (root.getIdx "dependencies").asArray
  deps.foldlM (fun acc dep => do
    let name ← unwrapD "name is not a string" (dep.getIdx "name").asStr
    pure (upsert name dep acc)) []

/-- `struct BuildInfo`: one parsed manifest. -/
structure BuildInfo where
  path : Path
  info : List (String × Value)
  libs : List (String × Link)
  settings : Value

/-- `BuildInfo::read_build_info` (src/lib.rs:83-97).  File-read failures
are I/O errors; invalid JSON is `expect`-panicked; the classifier's I/O
errors propagate through the `io::Result`. -/
def read_build_info (sys : Sys) (path : Path) : Rt BuildInfo := do
  let contents ← match sys.readFile path with
    | .ok s => pure s
    | .error e => Except.error (.ioErr e)
  let info ← match sys.parseJson contents with
    | some v => pure v
    | none => Except.error (.panic "Invalid build info json")
  let settings := info.getIdx "settings"
  let infoMap ← build_info info
  let libs ← find_all_libs sys infoMap
  pure { path := path, info := infoMap, libs := libs, settings := settings }

/-- `BuildInfo::target_from_arch_and_os` (src/lib.rs:277-307): the fixed
(os, arch) → triple table; unknown pairs panic (`unimplemented`). -/
def target_from_arch_and_os (arch os : String) : Rt String :=
  match os with
  | "Linux" =>
    match arch with
    | "x86_64" => .ok "x86_64-unknown-linux-gnu"
    | "x86" => .ok "i686-unknown-linux-gnu"
    | _ => .error (.panic ("Unsupported architecture " ++ arch ++ "/" ++ os))
  | "Windows" =>
    match arch with
    | "x86_64" => .ok "x86_64-pc-windows-msvc"
    | "x86" => .ok "i686-pc-windows-msvc"
    | _ => .error (.panic ("Unsupported architecture " ++ arch ++ "/" ++ os))
  | "Macos" =>
    match arch with
    | "armv8" => .ok "aarch64-apple-darwin"
    | "x86_64" => .ok "x86_64-apple-darwin"
    | _ => .error (.panic ("Unsupported architecture " ++ arch ++ "/" ++ os))
  | "iOS" =>
    match arch with
    | "armv8" => .ok "aarch64-apple-ios"
    | _ => .error (.panic ("Unsupported architecture " ++ arch ++ "/" ++ os))
  | "Android" =>
    match arch with
    | "armv8" => .ok "aarch64-linux-android"
    | "armv7" => .ok "armv7-linux-androideabi"
    | "x86" => .ok "i686-linux-android"
    | "x86_64" => .ok "x86_64-linux-android"
    | _ => .error (.panic ("Unsupported architecture " ++ arch ++ "/" ++ os))
  | _ => .error (.panic ("Unsupported OS " ++ os))

/-- `BuildInfo::target` (src/lib.rs:99-104): `settings["arch"]` and
`settings["os"]` unwrapped, then the triple table. -/
def BuildInfo.target (b : BuildInfo) : Rt String := do
  let arch ← unwrapD "arch is not a string" (b.settings.getIdx "arch").asStr
  let os ← unwrapD "os is not a string" (b.settings.getIdx "os").asStr
  target_from_arch_and_os arch os

/-- Rust `str::split_once('_')`: split at the first underscore. -/
def splitOnceUnderscore (s : String) : Option (String × String) :=
  (go s.data).map (fun ab => (String.mk ab.1, String.mk ab.2))
where
  go : List Char → Option (List Char × List Char)
    | [] => none
    | c :: rest =>
      if c = '_' then some ([], rest)
      else (go rest).map (fun ab => (c :: ab.1, ab.2))

/-- `BuildInfoSet::path_from_env` (src/lib.rs:32-38): environment
variables whose name splits (at the first `'_'`) into `(_, "CONANBUILDINFO")`,
or is exactly `CONANBUILDINFO`, contribute their value as a path. -/
def path_from_env (vars : List (String × String)) : List Path :=
  vars.filterMap (fun kv =>
    match splitOnceUnderscore kv.1 with
    | some ab => if ab.2 = "CONANBUILDINFO" then some (pathOfString kv.2) else none
    | none => if kv.1 = "CONANBUILDINFO" then some (pathOfString kv.2) else none)

/-- `Path::ancestors`: the directory itself, then each parent, ending at
the root (`[]`), innermost first — mirrors the Rust iterator. -/
def ancestors (p : Path) : List Path :=
  (List.range (p.length + 1)).reverse.map (fun n => p.take n)

/-- The candidate manifests contributed by one directory
(the `flat_map` body of `path_from_filesystem`): the manifest filename
inside each immediate entry of the directory, then the manifest filename
directly inside the directory.  An unreadable directory is
`unwrap`-panicked. -/
def dir_candidates (sys : Sys) (dir : Path) : Rt (List Path) :=
  match sys.readDir dir with
  | .error e => .error (.panic e)
  | .ok entries => .ok ((entries.map (fun n => dir ++ [n, BUILD_INFO])) ++ [dir ++ [BUILD_INFO]])

/-- `BuildInfoSet::path_from_filesystem` (src/lib.rs:40-52): ancestors
of the working directory, root-most first (`.rev()`), flat-mapped
through `dir_candidates`. -/
def path_from_filesystem (sys : Sys) (current_dir : Path) : Rt (List Path) :=
  (ancestors current_dir).reverse.foldlM (fun acc dir => do
    let cs ← dir_candidates sys dir
    pure (acc ++ cs)) []

/-- One step of the discovery fold in `BuildInfoSet::find_all`
(src/lib.rs:20-27): parse the candidate; on success index it by its
target (last write wins); an `io::Result` error is logged (`eprintln`)
and skipped; a panic propagates. -/
def findAllStep (sys : Sys) (acc : List (String × BuildInfo)) (path : Path) :
    Rt (List (String × BuildInfo)) :=
  match read_build_info sys path with
  | .ok info =>
    match info.target with
    | .ok t => .ok (upsert t info acc)
    | .error e => .error e
  | .error (.ioErr _) => .ok acc
  | .error (.panic m) => .error (.panic m)

/-- `BuildInfoSet::find_all` (src/lib.rs:16-30): filesystem candidates
then environment candidates, keep those that exist, parse and index by
target triple into the `BuildInfoSet` map. -/
def find_all (sys : Sys) (current_dir : Path) : Rt (List (String × BuildInfo)) := do
  let fsPaths ← path_from_filesystem sys current_dir
  let candidates := fsPaths ++ path_from_env sys.vars
  (candidates.filter sys.pathExists).foldlM (findAllStep sys) []

/-- `BuildInfo::try_package` (src/lib.rs:190-192). -/
def BuildInfo.try_package (b : BuildInfo) (package : String) : Option Value :=
  alookup package b.info

/-- `BuildInfo::package` (src/lib.rs:185-188): missing dependency panics. -/
def BuildInfo.package (b : BuildInfo) (package : String) : Rt Value :=
  unwrapD ("No dependency \"" ++ package ++ "\" in conan info") (b.try_package package)

/-- `BuildInfo::is_shared` (src/lib.rs:138-140): look up the link kind,
defaulting to `Shared` when the library name is unknown. -/
def BuildInfo.is_shared (b : BuildInfo) (lib : String) : Bool :=
  ((alookup lib b.libs).getD Link.shared) == Link.shared

/-- `BuildInfo::libs_for` (src/lib.rs:154-161). -/
def BuildInfo.libs_for (b : BuildInfo) (package : String) : Rt (List String) := do
  let p ← b.package package
  let arr ← unwrapD "libs is not an array" (p.getIdx "libs").asArray
  arr.mapM (fun lib => unwrapD "lib is not a string" lib.asStr)

/-- `BuildInfo::libdir_for` (src/lib.rs:142-144). -/
def BuildInfo.libdir_for (b : BuildInfo) (package : String) : Rt (List String) := do
  let p ← b.package package
  libdir_for_package p

/-- `BuildInfo::includes_for` (src/lib.rs:163-170). -/
def BuildInfo.includes_for (b : BuildInfo) (package : String) : Rt (List String) := do
  let p ← b.package package
  let arr ← unwrapD "include_paths is not an array" (p.getIdx "include_paths").asArray
  arr.mapM (fun j => unwrapD "include_path is not a string" j.asStr)

/-- `BuildInfo::bindir_for` (src/lib.rs:172-179). -/
def BuildInfo.bindir_for (b : BuildInfo) (package : String) : Rt (List String) := do
  let p ← b.package package
  let arr ← unwrapD "bin_paths is not an array" (p.getIdx "bin_paths").asArray
  arr.mapM (fun lib => unwrapD "bin_path is not a string" lib.asStr)

/-- `BuildInfo::rootpath_for` (src/lib.rs:181-183). -/
def BuildInfo.rootpath_for (b : BuildInfo) (package : String) : Rt String := do
  let p ← b.package package
  unwrapD "rootpath is not a string" (p.getIdx "rootpath").asStr

/-- `struct Lib` (src/lib.rs:504-507). -/
structure Lib where
  is_static : Bool
  name : String
deriving Repr, DecidableEq

/-- `struct LibDir` (src/lib.rs:522). -/
structure LibDir where
  dir : String
deriving Repr, DecidableEq

/-- `struct DependsOn` (src/lib.rs:529-533). -/
structure DependsOn where
  libs : List Lib
  libdirs : List LibDir
deriving Repr, DecidableEq

/-- `DependsOn::default()`. -/
def DependsOn.default : DependsOn := ⟨[], []⟩

/-- `DependsOn::extend` (src/lib.rs:535-538). -/
def DependsOn.extend (a b : DependsOn) : DependsOn :=
  ⟨a.libs ++ b.libs, a.libdirs ++ b.libdirs⟩

/-- `DependsOn::extend_all` (src/lib.rs:540-547): `reduce` +
`unwrap_or_default`, equivalent to a fold from the (left-neutral)
default. -/
def DependsOn.extend_all (l : List DependsOn) : DependsOn :=
  l.foldl DependsOn.extend DependsOn.default

/-- `BuildInfo::get_depends_on_package` (src/lib.rs:120-136): one Lib
entry per declared library name (`is_static = !is_shared`), one LibDir
per declared search directory. -/
def BuildInfo.get_depends_on_package (b : BuildInfo) (package : String) : Rt DependsOn := do
  let names ← b.libs_for package
  let libs := names.map (fun name => Lib.mk (!(b.is_shared name)) name)
  let dirs ← b.libdir_for package
  pure ⟨libs, dirs.map LibDir.mk⟩

/-- `BuildInfo::get_depends_on` (src/lib.rs:110-118). -/
def BuildInfo.get_depends_on (b : BuildInfo) (packages : List String) : Rt DependsOn := do
  let parts ← packages.mapM (fun p => b.get_depends_on_package p)
  pure (DependsOn.extend_all parts)

/-- The rename/strip rule inside `BuildInfo::libcxx_name`
(src/lib.rs:270-274): `"libstdc++11"` maps to `"stdc++"`, any other
identifier starting with `"lib"` loses that prefix, anything else is
kept as is. -/
def libcxxRename (l : List Char) : List Char :=
  if l = "libstdc++11".data then "stdc++".data
  else if "lib".data.isPrefixOf l then l.drop 3
  else l

/-- `BuildInfo::libcxx_name` (src/lib.rs:261-275): read
`settings."compiler.libcxx"` (absence yields `none` via `?`), `expect`
it to be a string, apply the rename rule. -/
def BuildInfo.libcxx_name (b : BuildInfo) : Rt (Option String) := do
  let fields ← unwrapD "settings attribute is an object" b.settings.asObject
  match alookup "compiler.libcxx" fields with
  | none => pure none
  | some v => do
    let s ← unwrapD "compiler.libcxx attribute is an string" v.asStr
    pure (some (String.mk (libcxxRename s.data)))

/-- `BuildInfo::libcxx` (src/lib.rs:254-259): the derived C++ standard
library entry, always `is_static = false`. -/
def BuildInfo.libcxx (b : BuildInfo) : Rt (Option Lib) := do
  let n ← b.libcxx_name
  pure (n.map (fun name => Lib.mk false name))

/-- The `shared_deps` iterator of `BuildInfo::write_env_source`
(src/lib.rs:212-216): dependencies with at least one `is_shared`
library. -/
def BuildInfo.shared_deps (b : BuildInfo) : Rt (List String) :=
  (b.info.map Prod.fst).foldlM (fun acc package => do
    let libs ← b.libs_for package
    pure (if libs.any (fun lib => b.is_shared lib) then acc ++ [package] else acc)) []

/-- The `libdirs` string of `write_env_source` (src/lib.rs:218-222):
the shared dependencies' `lib_paths`, colon-joined. -/
def BuildInfo.libdirs_joined (b : BuildInfo) : Rt String := do
  let deps ← b.shared_deps
  let ls ← deps.mapM (fun p => b.libdir_for p)
  pure (String.intercalate ":" ls.flatten)

/-- The `bindirs` string of `write_env_source` (src/lib.rs:227-231):
the shared dependencies' `bin_paths`, semicolon-joined, backslashes
doubled. -/
def BuildInfo.bindirs_joined (b : BuildInfo) : Rt String := do
  let deps ← b.shared_deps
  let ls ← deps.mapM (fun p => b.bindir_for p)
  pure (replaceChar '\\' ['\\', '\\'] (String.intercalate ";" ls.flatten))

/-- The openssl block of `write_env_source` (src/lib.rs:237-246):
when an `"openssl"` dependency is present, export its rootpath under the
prefixed name, and additionally under the bare name when `is_host`.
Returns the (sh, ps1) lines it contributes. -/
def BuildInfo.openssl_lines (b : BuildInfo) (pfx : String) (is_host : Bool) :
    Rt (List String × List String) :=
  match b.try_package "openssl" with
  | none => .ok ([], [])
  | some _ => do
    let dir ← b.rootpath_for "openssl"
    pure (("export " ++ pfx ++ "_OPENSSL_DIR=" ++ dir)
            :: (if is_host then ["export OPENSSL_DIR=" ++ dir] else []),
          ("$env:" ++ pfx ++ "_OPENSSL_DIR=\"" ++ dir ++ "\"")
            :: (if is_host then ["$env:OPENSSL_DIR=\"" ++ dir ++ "\""] else []))

/-- `BuildInfo::write_env_source` (src/lib.rs:194-252), modelled as the
pair of line lists written to the `sh` and `ps1` streams on a fully
successful run (write/flush failures of the streams themselves are not
modelled).  Line order matches the source: the `<PREFIX>_CONANBUILDINFO`
assignment, then (host only, and only when non-empty) the
`LD_LIBRARY_PATH` / `PATH` aggregate, then the openssl block. -/
def BuildInfo.write_env_source (b : BuildInfo) (is_host : Bool) :
    Rt (List String × List String) := do
  let t ← b.target
  let pfx := replaceChar '-' ['_'] t
  let pathStr := renderPath b.path
  let ld ← b.libdirs_joined
  let bd ← b.bindirs_joined
  let ssl ← b.openssl_lines pfx is_host
  pure (("export " ++ pfx ++ "_CONANBUILDINFO=" ++ pathStr)
          :: ((if !(ld == "") && is_host then ["export LD_LIBRARY_PATH=" ++ ld] else [])
              ++ ssl.1),
        ("$env:" ++ pfx ++ "_CONANBUILDINFO=\"" ++ pathStr ++ "\"")
          :: ((if !(bd == "") && is_host then ["$env:PATH=\"" ++ bd ++ ";$env:PATH\""] else [])
              ++ ssl.2))

/-- `struct Conan` (src/lib.rs:310-314): the orchestrator state.  The
`rerun_if_changed` flag only gates a printed cargo directive and is not
needed by any property below. -/
structure Conan where
  info : List (String × BuildInfo)
  host : String

/-- `Conan::build_info` (src/lib.rs:354-364): the host's manifest;
missing host triple panics. -/
def Conan.build_info (c : Conan) : Rt BuildInfo :=
  unwrapD ("Could not find build info for \"" ++ c.host ++ "\"") (alookup c.host c.info)

/-- `Conan::depends_on` (src/lib.rs:366-375), modelled as the
`DependsOn` whose directives it applies. -/
def Conan.depends_on (c : Conan) (packages : List String) : Rt DependsOn := do
  let b ← c.build_info
  let parts ← packages.mapM (fun p => b.get_depends_on_package p)
  pure (DependsOn.extend_all parts)

/-- `Conan::depends_on_optional` (src/lib.rs:377-387): filter out the
packages absent from the manifest, then resolve as `depends_on`. -/
def Conan.depends_on_optional (c : Conan) (packages : List String) : Rt DependsOn := do
  let b ← c.build_info
  let parts ← (packages.filter (fun p => (b.try_package p).isSome)).mapM
      (fun p => b.get_depends_on_package p)
  pure (DependsOn.extend_all parts)

/-- The subsequence of discovery candidates that parse successfully and
compute a target triple, with that triple, in candidate order — the
pairs `find_all` actually indexes. -/
def successList (sys : Sys) (paths : List Path) : List (String × BuildInfo) :=
  paths.filterMap (fun p =>
    match read_build_info sys p with
    | .ok info =>
      match info.target with
      | .ok t => some (t, info)
      | .error _ => none
    | .error _ => none)

/-- A `Sys` with no readable filesystem, no parseable JSON and no
environment: classification probes all fail. -/
def noFs : Sys :=
  ⟨fun _ => .error "enoent", fun _ => .error "enoent", fun _ => false, fun _ => none, []⟩

/-- A package descriptor whose single library directory `/opt/x/lib`
contains only the versioned shared object `libfoo.so.1`. -/
def versionedSoPkg : Value :=
  .obj [("name", .str "x"), ("lib_paths", .arr [.str "/opt/x/lib"])]

/-- Filesystem for `versionedSoPkg`: `/opt/x/lib` lists exactly
`libfoo.so.1`. -/
def versionedSoSys : Sys :=
  ⟨fun _ => .error "enoent",
   fun p => if p = ["opt", "x", "lib"] then .ok ["libfoo.so.1"] else .error "enoent",
   fun _ => false, fun _ => none, []⟩

/-- Filesystem containing a dynamic library at `root/pkg/bin/foo.dll`
and nothing else (the `bin` directory sibling to the `root/pkg/lib`
library directory), for probing the import-library branch. -/
def dllSys : Sys :=
  ⟨fun _ => .error "enoent", fun _ => .error "enoent",
   fun p => decide (p = ["root", "pkg", "bin", "foo.dll"]), fun _ => none, []⟩

/-- A parsed host manifest with no dependencies: path `x.json`,
settings `arch = x86_64`, `os = Linux`. -/
def hostManifest : BuildInfo :=
  ⟨["x.json"], [], [], .obj [("arch", .str "x86_64"), ("os", .str "Linux")]⟩

/-- A zeromq package descriptor with one library, one library directory
and one binary directory. -/
def zmqPkg : Value :=
  .obj [("name", .str "zeromq"), ("libs", .arr [.str "zmq"]),
    ("lib_paths", .arr [.str "/opt/zmq/lib"]), ("bin_paths", .arr [.str "/opt/zmq/bin"]),
    ("rootpath", .str "/opt/zmq")]

/-- A parsed manifest depending on `zeromq`, whose `zmq` library was
classified shared. -/
def zmqManifest : BuildInfo :=
  ⟨["x.json"], [("zeromq", zmqPkg)], [("zmq", Link.shared)],
   .obj [("arch", .str "x86_64"), ("os", .str "Linux")]⟩

/-- A well-formed manifest document with no dependencies,
`arch = x86_64`, `os = Linux`. -/
def emptyManifestDoc : Value :=
  .obj [("settings", .obj [("arch", .str "x86_64"), ("os", .str "Linux")]),
    ("dependencies", .arr [])]

/-- Discovery scenario for C1: the working directory is the root, which
contains two subdirectories `bad` and `good`, each holding a manifest.
`bad`'s manifest file reads fine but is invalid JSON; `good`'s parses to
`emptyManifestDoc`. -/
def mixedParseSys : Sys where
  readFile := fun p =>
    if p = ["bad", "conanbuildinfo.json"] then .ok "not-json"
    else if p = ["good", "conanbuildinfo.json"] then .ok "good-json"
    else .error "enoent"
  readDir := fun p => if p = [] then .ok ["bad", "good"] else .error "enoent"
  pathExists := fun p =>
    decide (p = ["bad", "conanbuildinfo.json"]) || decide (p = ["good", "conanbuildinfo.json"])
  parseJson := fun s => if s = "good-json" then some emptyManifestDoc else none
  vars := []

/-- Discovery scenario for the C1 amended claim's I/O-error arm: the
root directory lists one subdirectory `io` whose manifest exists but
cannot be read. -/
def ioErrSys : Sys where
  readFile := fun _ => .error "permission denied"
  readDir := fun p => if p = [] then .ok ["io"] else .error "enoent"
  pathExists := fun p => decide (p = ["io", "conanbuildinfo.json"])
  parseJson := fun _ => none
  vars := []

/-- Discovery scenario for C7: the working directory is the root, which
contains subdirectories `a` and `b`, each holding a manifest; both parse
to documents computing the same target triple. -/
def duplicateTripleSys : Sys where
  readFile := fun p =>
    if p = ["a", "conanbuildinfo.json"] then .ok "ja"
    else if p = ["b", "conanbuildinfo.json"] then .ok "jb"
    else .error "enoent"
  readDir := fun p => if p = [] then .ok ["a", "b"] else .error "enoent"
  pathExists := fun p =>
    decide (p = ["a", "conanbuildinfo.json"]) || decide (p = ["b", "conanbuildinfo.json"])
  parseJson := fun s =>
    if s = "ja" || s = "jb" then some emptyManifestDoc else none
  vars := []

/-- The manifest `duplicateTripleSys` discovery retains: parsed from
`b/conanbuildinfo.json`, the candidate processed later. -/
def dupManifestB : BuildInfo :=
  ⟨["b", "conanbuildinfo.json"], [], [],
   .obj [("arch", .str "x86_64"), ("os", .str "Linux")]⟩

/-- Destructure a successful bind in the `Rt` monad. -/
theorem bind_ok {α β : Type} {x : Rt α} {f : α → Rt β} {b : β}
    (h : (x >>= f) = .ok b) : ∃ a, x = .ok a ∧ f a = .ok b := by
  cases x with
  | ok a => exact ⟨a, rfl, h⟩
  | error e => exact Except.noConfusion h

/-- A resolved bind in the `Rt` monad computes. -/
theorem ok_bind {α β : Type} (a : α) (f : α → Rt β) :
    ((Except.ok a : Rt α) >>= f) = f a := rfl

theorem alookup_upsert (l : List (String × α)) (k : String) (v : α) (t : String) :
    alookup t (upsert k v l) = if k = t then some v else alookup t l := by
  induction l with
  | nil => simp [upsert, alookup]
  | cons hd tl ih =>
    obtain ⟨k', v'⟩ := hd
    by_cases hk : k' = k
    · subst hk
      by_cases ht : k' = t <;> simp [upsert, alookup, ht]
    · by_cases ht : k' = t
      · subst ht
        have : ¬ k = k' := fun h => hk h.symm
        simp [upsert, alookup, hk, this]
      · simp [upsert, alookup, hk, ht, ih]

theorem keys_upsert (l : List (String × α)) (k : String) (v : α) :
    (upsert k v l).map Prod.fst =
      if k ∈ l.map Prod.fst then l.map Prod.fst else l.map Prod.fst ++ [k] := by
  induction l with
  | nil => simp [upsert]
  | cons hd tl ih =>
    obtain ⟨k', v'⟩ := hd
    by_cases hk : k' = k
    · subst hk
      simp [upsert]
    · simp only [upsert, if_neg hk, List.map_cons, List.mem_cons]
      have hk' : ¬ k = k' := fun h => hk h.symm
      by_cases hmem : k ∈ tl.map Prod.fst
      · simp [hmem, hk', ih]
      · simp [hmem, hk', ih]

theorem keys_nodup_upsert (l : List (String × α)) (k : String) (v : α)
    (h : (l.map Prod.fst).Nodup) : ((upsert k v l).map Prod.fst).Nodup := by
  rw [keys_upsert]
  by_cases hmem : k ∈ l.map Prod.fst
  · simpa [hmem] using h
  · simp only [hmem, if_neg, ite_false]
    simpa [List.nodup_append, hmem] using h

/-- C6: a library name absent from the manifest's derived link-kind
mapping is reported shared (`is_shared` defaults to `Link.shared`), and
consequently every `Lib` entry emitted by `get_depends_on_package` for
an unclassified library name carries `is_static = false`. -/
theorem c6_unknown_lib_defaults_to_shared (b : BuildInfo) (package : String)
    (dep : DependsOn) (hdep : b.get_depends_on_package package = .ok dep) :
    (∀ lib : String, alookup lib b.libs = none → b.is_shared lib = true) ∧
    (∀ l ∈ dep.libs, alookup l.name b.libs = none → l.is_static = false) := by
  constructor
  · intro lib h
    simp [BuildInfo.is_shared, h]
  · intro l hl hnone
    simp only [BuildInfo.get_depends_on_package] at hdep
    obtain ⟨names, hnames, hrest⟩ := bind_ok hdep
    obtain ⟨dirs, hdirs, hpure⟩ := bind_ok hrest
    simp only [pure, Except.pure, Except.ok.injEq] at hpure
    subst hpure
    obtain ⟨name, hmem, rfl⟩ := List.mem_map.1 hl
    simp only [Lib.mk.injEq] at hnone ⊢
    simp [BuildInfo.is_shared, hnone]

/-- C6 witness: a manifest declaring package `zeromq` with library name
`zmq` while the classifier mapping is empty yields `is_static = false`. -/
theorem c6_unknown_lib_defaults_to_shared_witness :
    (Lib.mk false "zmq").is_static = false ∧
    BuildInfo.is_shared ⟨[], [("zeromq", Value.obj [("libs", .arr [.str "zmq"]),
      ("lib_paths", .arr [])])], [], .null⟩ "zmq" = true := by
  refine ⟨?_, ?_⟩
  · exact (c6_unknown_lib_defaults_to_shared
      ⟨[], [("zeromq", Value.obj [("libs", .arr [.str "zmq"]), ("lib_paths", .arr [])])], [], .null⟩
      "zeromq" ⟨[Lib.mk false "zmq"], []⟩ rfl).2 (Lib.mk false "zmq") (by simp) rfl
  · exact (c6_unknown_lib_defaults_to_shared
      ⟨[], [("zeromq", Value.obj [("libs", .arr [.str "zmq"]), ("lib_paths", .arr [])])], [], .null⟩
      "zeromq" ⟨[Lib.mk false "zmq"], []⟩ rfl).1 "zmq" rfl

/-- C8: a package name absent from the manifest makes the required
resolution path fail with the fatal missing-dependency panic, while the
optional path resolves to the empty contribution without error. -/
theorem c8_missing_package_required_vs_optional (c : Conan) (b : BuildInfo) (name : String)
    (hb : c.build_info = .ok b) (habs : b.try_package name = none) :
    c.depends_on [name] =
      .error (.panic ("No dependency \"" ++ name ++ "\" in conan info")) ∧
    c.depends_on_optional [name] = .ok ⟨[], []⟩ := by
  have hpkg : b.package name =
      .error (.panic ("No dependency \"" ++ name ++ "\" in conan info")) := by
    simp [BuildInfo.package, habs, unwrapD]
  constructor
  · simp [Conan.depends_on, hb, List.mapM, List.mapM.loop,
      BuildInfo.get_depends_on_package, BuildInfo.libs_for, hpkg,
      Bind.bind, Except.bind]
  · simp [Conan.depends_on_optional, hb, habs, List.mapM, List.mapM.loop,
      DependsOn.extend_all, DependsOn.default, Bind.bind, Except.bind, pure, Except.pure]

/-- C8 witness: an empty manifest for the host triple; requesting the
absent package `zeromq` is fatal on the required path and a silent no-op
on the optional path. -/
theorem c8_missing_package_required_vs_optional_witness :
    Conan.depends_on ⟨[("x86_64-unknown-linux-gnu", ⟨[], [], [], .null⟩)],
        "x86_64-unknown-linux-gnu"⟩ ["zeromq"] =
      .error (.panic "No dependency \"zeromq\" in conan info") ∧
    Conan.depends_on_optional ⟨[("x86_64-unknown-linux-gnu", ⟨[], [], [], .null⟩)],
        "x86_64-unknown-linux-gnu"⟩ ["zeromq"] = .ok ⟨[], []⟩ := by
  have h := c8_missing_package_required_vs_optional
    ⟨[("x86_64-unknown-linux-gnu", ⟨[], [], [], .null⟩)], "x86_64-unknown-linux-gnu"⟩
    ⟨[], [], [], .null⟩ "zeromq" rfl rfl
  simpa using h

/-- C9: `libcxx` yields no result when `compiler.libcxx` is absent from
the settings; when the setting holds a string it yields exactly one
`Lib`, always `is_static = false`, whose name is the renamed identifier;
`libstdc++11` and `libstdc++` both map to the canonical `stdc++`, and
any other `lib`-prefixed identifier loses that prefix. -/
theorem c9_libcxx_rules (b : BuildInfo) (fields : List (String × Value))
    (hs : b.settings = .obj fields) :
    (alookup "compiler.libcxx" fields = none → b.libcxx = .ok none) ∧
    (∀ s : String, alookup "compiler.libcxx" fields = some (.str s) →
        b.libcxx = .ok (some (Lib.mk false (String.mk (libcxxRename s.data))))) ∧
    (alookup "compiler.libcxx" fields = some (.str "libstdc++11") →
        b.libcxx = .ok (some (Lib.mk false "stdc++"))) ∧
    (alookup "compiler.libcxx" fields = some (.str "libstdc++") →
        b.libcxx = .ok (some (Lib.mk false "stdc++"))) ∧
    (∀ rest : List Char, rest ≠ "stdc++11".data →
        libcxxRename ('l' :: 'i' :: 'b' :: rest) = rest) := by
  refine ⟨?_, ?_, ?_, ?_, ?_⟩
  · intro h
    simp [BuildInfo.libcxx, BuildInfo.libcxx_name, hs, Value.asObject, unwrapD, h,
      Bind.bind, Except.bind, pure, Except.pure]
  · intro s h
    simp [BuildInfo.libcxx, BuildInfo.libcxx_name, hs, Value.asObject, Value.asStr, unwrapD, h,
      Bind.bind, Except.bind, pure, Except.pure]
  · intro h
    simp [BuildInfo.libcxx, BuildInfo.libcxx_name, hs, Value.asObject, Value.asStr, unwrapD, h,
      Bind.bind, Except.bind, pure, Except.pure]
    rfl
  · intro h
    simp [BuildInfo.libcxx, BuildInfo.libcxx_name, hs, Value.asObject, Value.asStr, unwrapD, h,
      Bind.bind, Except.bind, pure, Except.pure]
    rfl
  · intro rest h
    have hne : ('l' :: 'i' :: 'b' :: rest) ≠ "libstdc++11".data := by
      have hshape : "libstdc++11".data = 'l' :: 'i' :: 'b' :: "stdc++11".data := rfl
      rw [hshape]
      simp [h]
    simp [libcxxRename, hne, List.isPrefixOf]

/-- C9 witness: settings carrying `compiler.libcxx = "libstdc++11"`
yield `Lib { name := "stdc++", is_static := false }`. -/
theorem c9_libcxx_rules_witness :
    BuildInfo.libcxx ⟨[], [], [], .obj [("compiler.libcxx", .str "libstdc++11")]⟩ =
      .ok (some (Lib.mk false "stdc++")) ∧
    libcxxRename ('l' :: 'i' :: 'b' :: "sodium".data) = "sodium".data := by
  refine ⟨?_, ?_⟩
  · exact (c9_libcxx_rules ⟨[], [], [], .obj [("compiler.libcxx", .str "libstdc++11")]⟩
      [("compiler.libcxx", .str "libstdc++11")] rfl).2.2.1 rfl
  · exact (c9_libcxx_rules ⟨[], [], [], .obj []⟩ [] rfl).2.2.2.2 "sodium".data (by decide)

theorem lastDotIdx_append_so (name : List Char) :
    lastDotIdx (name ++ ".so".data) = some name.length := by
  induction name with
  | nil => rfl
  | cons c rest ih => simp [lastDotIdx, ih]

theorem not_suffix_of_last_ne {a b : Char} (hab : a ≠ b) (l₁ l₂ : List Char) :
    ¬ (l₁ ++ [a]) <:+ (l₂ ++ [b]) := by
  rintro ⟨t, ht⟩
  rw [← List.append_assoc] at ht
  have h1 := congrArg List.getLast? ht
  rw [List.getLast?_concat, List.getLast?_concat] at h1
  exact hab (Option.some.inj h1)

/-- C2: an environment variable named `<TARGET>_CONANBUILDINFO` whose
target segment itself contains underscores is NOT treated as a manifest
candidate (`split_once` cuts at the first underscore), even though the
crate's own `write_env_source` emits exactly such names for every
supported triple; only single-segment targets and the bare name match. -/
theorem c2_underscored_target_env_ignored :
    path_from_env [("x86_64_unknown_linux_gnu_CONANBUILDINFO", "/tmp/conanbuildinfo.json")] = [] ∧
    replaceChar '-' ['_'] "x86_64-unknown-linux-gnu" ++ "_CONANBUILDINFO" =
      "x86_64_unknown_linux_gnu_CONANBUILDINFO" ∧
    path_from_env [("CONANBUILDINFO", "/tmp/conanbuildinfo.json")] =
      [["tmp", "conanbuildinfo.json"]] ∧
    path_from_env [("HOST_CONANBUILDINFO", "/tmp/conanbuildinfo.json")] =
      [["tmp", "conanbuildinfo.json"]] :=
  ⟨rfl, rfl, rfl, rfl⟩

/-- C3 counterexample: for the host manifest (`is_host = true`,
settings `x86_64`/`Linux`) the manifest path is exported under the
prefixed name `x86_64_unknown_linux_gnu_CONANBUILDINFO`; no unprefixed
`CONANBUILDINFO` assignment appears in either stream. -/
theorem c3_counterexample :
    hostManifest.write_env_source true =
      .ok (["export x86_64_unknown_linux_gnu_CONANBUILDINFO=x.json"],
           ["$env:x86_64_unknown_linux_gnu_CONANBUILDINFO=\"x.json\""]) ∧
    "export CONANBUILDINFO=x.json" ∉ ["export x86_64_unknown_linux_gnu_CONANBUILDINFO=x.json"] ∧
    "$env:CONANBUILDINFO=\"x.json\"" ∉
      ["$env:x86_64_unknown_linux_gnu_CONANBUILDINFO=\"x.json\""] := by
  exact ⟨rfl, by decide, by decide⟩

/-- C3 amended: for every target, the host included, the variable-name
prefix is the triple with hyphens replaced by underscores, and the first
line of each stream exports the manifest path as
`<PREFIX>_CONANBUILDINFO` — the host gets no unprefixed name. -/
theorem c3_prefix_always_underscored_triple (b : BuildInfo) (is_host : Bool) (t : String)
    (out : List String × List String)
    (ht : b.target = .ok t) (hw : b.write_env_source is_host = .ok out) :
    out.1.head? =
      some ("export " ++ replaceChar '-' ['_'] t ++ "_CONANBUILDINFO=" ++ renderPath b.path) ∧
    out.2.head? =
      some ("$env:" ++ replaceChar '-' ['_'] t ++ "_CONANBUILDINFO=\"" ++
        renderPath b.path ++ "\"") := by
  simp only [BuildInfo.write_env_source, ht, ok_bind] at hw
  obtain ⟨ld, hld, hw⟩ := bind_ok hw
  obtain ⟨bd, hbd, hw⟩ := bind_ok hw
  obtain ⟨ssl, hssl, hw⟩ := bind_ok hw
  simp only [pure, Except.pure, Except.ok.injEq] at hw
  subst hw
  exact ⟨rfl, rfl⟩

/-- C3 witness: the amended statement evaluated on `hostManifest`. -/
theorem c3_prefix_always_underscored_triple_witness :
    List.head? ["export x86_64_unknown_linux_gnu_CONANBUILDINFO=x.json"] =
      some ("export " ++ replaceChar '-' ['_'] "x86_64-unknown-linux-gnu" ++
        "_CONANBUILDINFO=" ++ renderPath hostManifest.path) ∧
    List.head? ["$env:x86_64_unknown_linux_gnu_CONANBUILDINFO=\"x.json\""] =
      some ("$env:" ++ replaceChar '-' ['_'] "x86_64-unknown-linux-gnu" ++
        "_CONANBUILDINFO=\"" ++ renderPath hostManifest.path ++ "\"") :=
  c3_prefix_always_underscored_triple hostManifest true "x86_64-unknown-linux-gnu"
    (["export x86_64_unknown_linux_gnu_CONANBUILDINFO=x.json"],
     ["$env:x86_64_unknown_linux_gnu_CONANBUILDINFO=\"x.json\""]) rfl rfl

/-- C4 counterexample: a library directory containing only the
versioned shared object `libfoo.so.1` produces an EMPTY classification
map — the entry is ignored, `foo` is not recorded as shared. -/
theorem c4_counterexample :
    find_all_libs versionedSoSys [("x", versionedSoPkg)] = .ok [] ∧
    classify_file versionedSoSys ["opt", "x", "lib"] "libfoo.so.1".data = none :=
  ⟨rfl, rfl⟩

/-- C4 amended: only filenames ending exactly in `.so` reach the
shared-object branch; every such file `lib<name>.so` is recorded as
`<name> ↦ Shared` (leading `lib` stripped, trailing extension segment
stripped); a versioned object such as `libfoo.so.1` does not end in
`.so` and is ignored. -/
theorem c4_exact_so_suffix_only (sys : Sys) (dir : Path) (name : List Char) :
    classify_file sys dir ('l' :: 'i' :: 'b' :: (name ++ ".so".data)) =
      some (name, Link.shared) := by
  have hns : ¬ (".lib".data <:+ ('l' :: 'i' :: 'b' :: (name ++ ".so".data))) := by
    have hsh : ('l' :: 'i' :: 'b' :: (name ++ ".so".data)) =
        ((('l' :: 'i' :: 'b' :: name) ++ ['.', 's']) ++ ['o']) := by simp
    rw [hsh, show ".lib".data = ['.', 'l', 'i'] ++ ['b'] from rfl]
    exact not_suffix_of_last_ne (by decide) _ _
  have hlibF : ".lib".data.isSuffixOf ('l' :: 'i' :: 'b' :: (name ++ ".so".data)) = false := by
    cases hX : ".lib".data.isSuffixOf ('l' :: 'i' :: 'b' :: (name ++ ".so".data)) with
    | false => rfl
    | true => exact absurd (List.isSuffixOf_iff_suffix.mp hX) hns
  have hsoT : ".so".data.isSuffixOf ('l' :: 'i' :: 'b' :: (name ++ ".so".data)) = true := by
    rw [List.isSuffixOf_iff_suffix,
      show ('l' :: 'i' :: 'b' :: (name ++ ".so".data)) =
        (('l' :: 'i' :: 'b' :: name) ++ ".so".data) by simp]
    exact List.suffix_append _ _
  have hnorm : normalizeLib ('l' :: 'i' :: 'b' :: (name ++ ".so".data)) = name := by
    have hpre : "lib".data.isPrefixOf ('l' :: 'i' :: 'b' :: (name ++ ".so".data)) = true := by
      simp [List.isPrefixOf]
    simp only [normalizeLib, hpre, if_true]
    rw [show ('l' :: 'i' :: 'b' :: (name ++ ".so".data)).drop 3 = name ++ ".so".data from rfl]
    rw [lastDotIdx_append_so]
    exact List.take_left _ _
  simp [classify_file, hlibF, hsoT, hnorm]

/-- C5 counterexample: `root/pkg/lib/foo.lib` with the dynamic library
present at `root/pkg/bin/foo.dll` (one level up from the library
directory) and nothing at `root/bin/foo.dll` (two levels up, the
claim's probe location) is classified Shared — the probe goes up two
levels from the ENTRY path, i.e. one level from the library directory. -/
theorem c5_counterexample :
    classify_file dllSys ["root", "pkg", "lib"] "foo.lib".data =
      some ("foo".data, Link.shared) ∧
    dllSys.pathExists ["root", "bin", "foo.dll"] = false ∧
    dllSys.pathExists ["root", "pkg", "bin", "foo.dll"] = true :=
  ⟨rfl, rfl, rfl⟩

/-- C5 amended: for every filename `<name>.lib` the classifier strips
the extension and probes `parent(libdir)/bin/<name>.dll` — the `bin`
directory SIBLING to the library directory (two levels up from the
entry's full path, one from the library directory); presence means
Shared, absence Static. -/
theorem c5_import_lib_probes_sibling_bin (sys : Sys) (dir : Path) (name : List Char) :
    classify_file sys dir (name ++ ".lib".data) =
      some (name,
        if sys.pathExists (dir.dropLast ++ ["bin", String.mk (name ++ ".dll".data)])
        then Link.shared else Link.static) := by
  have hlibT : ".lib".data.isSuffixOf (name ++ ".lib".data) = true := by
    rw [List.isSuffixOf_iff_suffix]
    exact List.suffix_append _ _
  simp [classify_file, hlibT, List.take_left]

/-- C10: with `is_host = true`, the `LD_LIBRARY_PATH` line appears in
the shell stream exactly when the colon-joined shared-dependency
library-directory list is non-empty, and the `PATH` prepend appears in
the PowerShell stream exactly when the semicolon-joined binary-directory
list is non-empty; when the joined string is empty no such line is
written at all (the output is fully characterised in each case). -/
theorem c10_runtime_path_lines_gated_on_nonempty (b : BuildInfo) (t ld bd : String)
    (ssl out : List String × List String)
    (ht : b.target = .ok t) (hld : b.libdirs_joined = .ok ld) (hbd : b.bindirs_joined = .ok bd)
    (hssl : b.openssl_lines (replaceChar '-' ['_'] t) true = .ok ssl)
    (hw : b.write_env_source true = .ok out) :
    (ld = "" → out.1 =
        ("export " ++ replaceChar '-' ['_'] t ++ "_CONANBUILDINFO=" ++ renderPath b.path)
          :: ssl.1) ∧
    (ld ≠ "" → out.1 =
        ("export " ++ replaceChar '-' ['_'] t ++ "_CONANBUILDINFO=" ++ renderPath b.path)
          :: ("export LD_LIBRARY_PATH=" ++ ld) :: ssl.1) ∧
    (bd = "" → out.2 =
        ("$env:" ++ replaceChar '-' ['_'] t ++ "_CONANBUILDINFO=\"" ++ renderPath b.path ++ "\"")
          :: ssl.2) ∧
    (bd ≠ "" → out.2 =
        ("$env:" ++ replaceChar '-' ['_'] t ++ "_CONANBUILDINFO=\"" ++ renderPath b.path ++ "\"")
          :: ("$env:PATH=\"" ++ bd ++ ";$env:PATH\"") :: ssl.2) := by
  simp only [BuildInfo.write_env_source, ht, ok_bind, hld, hbd, hssl] at hw
  simp only [pure, Except.pure, Except.ok.injEq] at hw
  subst hw
  refine ⟨?_, ?_, ?_, ?_⟩
  · intro h
    subst h
    simp
  · intro h
    simp [h]
  · intro h
    subst h
    simp
  · intro h
    simp [h]

/-- C10 witness: the amended statement evaluated on a manifest with one
shared dependency (both joins non-empty) and on a dependency-free
manifest (both joins empty). -/
theorem c10_runtime_path_lines_gated_on_nonempty_witness :
    (["export x86_64_unknown_linux_gnu_CONANBUILDINFO=x.json",
      "export LD_LIBRARY_PATH=/opt/zmq/lib"] =
        ("export " ++ replaceChar '-' ['_'] "x86_64-unknown-linux-gnu" ++ "_CONANBUILDINFO=" ++
          renderPath zmqManifest.path) :: ("export LD_LIBRARY_PATH=" ++ "/opt/zmq/lib") :: []) ∧
    (["export x86_64_unknown_linux_gnu_CONANBUILDINFO=x.json"] =
        ("export " ++ replaceChar '-' ['_'] "x86_64-unknown-linux-gnu" ++ "_CONANBUILDINFO=" ++
          renderPath hostManifest.path) :: []) := by
  constructor
  · exact (c10_runtime_path_lines_gated_on_nonempty zmqManifest "x86_64-unknown-linux-gnu"
      "/opt/zmq/lib" "/opt/zmq/bin" ([], [])
      (["export x86_64_unknown_linux_gnu_CONANBUILDINFO=x.json",
        "export LD_LIBRARY_PATH=/opt/zmq/lib"],
       ["$env:x86_64_unknown_linux_gnu_CONANBUILDINFO=\"x.json\"",
        "$env:PATH=\"/opt/zmq/bin;$env:PATH\""])
      rfl rfl rfl rfl rfl).2.1 (by decide)
  · exact (c10_runtime_path_lines_gated_on_nonempty hostManifest "x86_64-unknown-linux-gnu"
      "" "" ([], [])
      (["export x86_64_unknown_linux_gnu_CONANBUILDINFO=x.json"],
       ["$env:x86_64_unknown_linux_gnu_CONANBUILDINFO=\"x.json\""])
      rfl rfl rfl rfl rfl).1 rfl

/-- C1 counterexample: discovery over a tree holding one manifest with
invalid JSON and one valid manifest aborts with the fatal
`Invalid build info json` panic instead of skipping the bad candidate
and returning the remaining manifest (which on its own parses fine). -/
theorem c1_counterexample :
    find_all mixedParseSys [] = .error (.panic "Invalid build info json") ∧
    Except.map BuildInfo.path (read_build_info mixedParseSys ["good", "conanbuildinfo.json"]) =
      .ok ["good", "conanbuildinfo.json"] :=
  ⟨rfl, rfl⟩

/-- C1 amended: during discovery a candidate whose read fails with an
I/O error (bad file read, or unreadable library directory during its
parse) is logged and skipped, discovery continuing with the accumulator
unchanged; a candidate whose contents fail JSON parsing raises a fatal
panic that aborts the whole discovery. -/
theorem c1_io_error_skipped_parse_failure_fatal (sys : Sys)
    (acc : List (String × BuildInfo)) (p : Path) :
    (∀ e, read_build_info sys p = .error (.ioErr e) → findAllStep sys acc p = .ok acc) ∧
    (∀ m, read_build_info sys p = .error (.panic m) →
        findAllStep sys acc p = .error (.panic m)) := by
  constructor <;> intro x h <;> simp [findAllStep, h]

/-- C1 witness: the amended statement evaluated on an unreadable
candidate (skipped) and on an invalid-JSON candidate (fatal). -/
theorem c1_io_error_skipped_parse_failure_fatal_witness :
    findAllStep ioErrSys [] ["io", "conanbuildinfo.json"] = .ok [] ∧
    findAllStep mixedParseSys [] ["bad", "conanbuildinfo.json"] =
      .error (.panic "Invalid build info json") := by
  constructor
  · exact (c1_io_error_skipped_parse_failure_fatal ioErrSys []
      ["io", "conanbuildinfo.json"]).1 "permission denied" rfl
  · exact (c1_io_error_skipped_parse_failure_fatal mixedParseSys []
      ["bad", "conanbuildinfo.json"]).2 "Invalid build info json" rfl

theorem foldlM_dir_candidates_ok (sys : Sys) :
    ∀ (dirs : List Path) (acc res : List Path),
      (dirs.foldlM (fun acc dir =>
          dir_candidates sys dir >>= fun cs => pure (acc ++ cs)) acc) = .ok res →
      res = acc ++ dirs.flatMap (fun dir => (dir_candidates sys dir).toOption.getD []) := by
  intro dirs
  induction dirs with
  | nil =>
    intro acc res h
    simp only [List.foldlM, pure, Except.pure, Except.ok.injEq] at h
    simp [h]
  | cons d rest ih =>
    intro acc res h
    simp only [List.foldlM] at h
    cases hd : dir_candidates sys d with
    | error e =>
      rw [hd] at h
      exact Except.noConfusion h
    | ok cs =>
      rw [hd] at h
      rw [show ((Except.ok cs : Rt (List Path)) >>= fun cs =>
        (pure (acc ++ cs) : Rt (List Path))) = .ok (acc ++ cs) from rfl, ok_bind] at h
      have hres := ih (acc ++ cs) res h
      simp [hres, hd, Except.toOption]

theorem foldlM_findAllStep_ok (sys : Sys) :
    ∀ (paths : List Path) (acc res : List (String × BuildInfo)),
      paths.foldlM (findAllStep sys) acc = .ok res →
      res = (successList sys paths).foldl (fun a q => upsert q.1 q.2 a) acc := by
  intro paths
  induction paths with
  | nil =>
    intro acc res h
    simp only [List.foldlM, pure, Except.pure, Except.ok.injEq] at h
    simp [successList, h]
  | cons p rest ih =>
    intro acc res h
    simp only [List.foldlM] at h
    cases hstep : findAllStep sys acc p with
    | error e =>
      rw [hstep] at h
      exact Except.noConfusion h
    | ok acc' =>
      rw [hstep, ok_bind] at h
      have hres := ih acc' res h
      cases hr : read_build_info sys p with
      | ok info =>
        cases htg : info.target with
        | ok t =>
          have hstep' : acc' = upsert t info acc := by
            simp only [findAllStep, hr, htg, Except.ok.injEq] at hstep
            exact hstep.symm
          subst hstep'
          simp [successList, hr, htg] at hres ⊢
          exact hres
        | error e =>
          simp only [findAllStep, hr, htg] at hstep
          exact Except.noConfusion hstep
      | error e =>
        cases e with
        | ioErr m =>
          have hstep' : acc' = acc := by
            simp only [findAllStep, hr, Except.ok.injEq] at hstep
            exact hstep.symm
          subst hstep'
          simp [successList, hr] at hres ⊢
          exact hres
        | panic m =>
          simp only [findAllStep, hr] at hstep
          exact Except.noConfusion hstep

theorem alookup_foldl_upsert (l : List (String × α)) :
    ∀ (acc : List (String × α)) (t : String),
      alookup t (l.foldl (fun a q => upsert q.1 q.2 a) acc) =
        match l.reverse.find? (fun q => q.1 == t) with
        | some q => some q.2
        | none => alookup t acc := by
  induction l with
  | nil =>
    intro acc t
    simp
  | cons q rest ih =>
    intro acc t
    cases hf : rest.reverse.find? (fun r => r.1 == t) with
    | some r =>
      rw [List.foldl_cons, ih (upsert q.1 q.2 acc) t, hf, List.reverse_cons,
        List.find?_append, hf]
      simp [Option.or]
    | none =>
      rw [List.foldl_cons, ih (upsert q.1 q.2 acc) t, hf, List.reverse_cons,
        List.find?_append, hf]
      simp only [Option.or, alookup_upsert]
      by_cases hqt : q.1 = t
      · have hb : (q.1 == t) = true := by simp [hqt]
        simp [List.find?, hb, hqt]
      · have hb : (q.1 == t) = false := by simp [hqt]
        simp [List.find?, hb, hqt]

theorem keys_nodup_foldl_upsert (l : List (String × α)) :
    ∀ acc : List (String × α), (acc.map Prod.fst).Nodup →
      ((l.foldl (fun a q => upsert q.1 q.2 a) acc).map Prod.fst).Nodup := by
  induction l with
  | nil =>
    intro acc h
    simpa using h
  | cons q rest ih =>
    intro acc h
    exact ih _ (keys_nodup_upsert _ _ _ h)

/-- C7: discovery enumerates candidates filesystem-first — the ancestors
of the working directory root-most first, each contributing the manifest
name under its immediate entries and then directly under itself —
followed by the environment-variable candidates; the resulting map has
exactly one manifest per triple (keys nodup), and the manifest retained
for a triple is the one of the LAST successfully parsed candidate with
that triple in this order. -/
theorem c7_same_triple_last_discovery_wins (sys : Sys) (current_dir : Path)
    (fsPaths : List Path) (res : List (String × BuildInfo)) (t : String)
    (hfs : path_from_filesystem sys current_dir = .ok fsPaths)
    (hfind : find_all sys current_dir = .ok res) :
    fsPaths = ((ancestors current_dir).reverse).flatMap
        (fun dir => (dir_candidates sys dir).toOption.getD []) ∧
    (res.map Prod.fst).Nodup ∧
    alookup t res =
      Option.map Prod.snd
        ((successList sys
            ((fsPaths ++ path_from_env sys.vars).filter sys.pathExists)).reverse.find?
          (fun q => q.1 == t)) := by
  have hshape : fsPaths = ((ancestors current_dir).reverse).flatMap
      (fun dir => (dir_candidates sys dir).toOption.getD []) := by
    have := foldlM_dir_candidates_ok sys ((ancestors current_dir).reverse) [] fsPaths
      (by simpa [path_from_filesystem] using hfs)
    simpa using this
  simp only [find_all, hfs, ok_bind] at hfind
  have hres := foldlM_findAllStep_ok sys
    ((fsPaths ++ path_from_env sys.vars).filter sys.pathExists) [] res hfind
  subst hres
  refine ⟨hshape, keys_nodup_foldl_upsert _ [] (by simp), ?_⟩
  rw [alookup_foldl_upsert]
  cases hf : (successList sys
      ((fsPaths ++ path_from_env sys.vars).filter sys.pathExists)).reverse.find?
      (fun q => q.1 == t) with
  | some r => rfl
  | none => rfl

/-- C7 witness: two sibling manifests `a/conanbuildinfo.json` and
`b/conanbuildinfo.json` computing the same triple; the map retains
exactly one entry, the one from `b`, discovered later. -/
theorem c7_same_triple_last_discovery_wins_witness :
    ([["a", "conanbuildinfo.json"], ["b", "conanbuildinfo.json"],
      ["conanbuildinfo.json"]] : List Path) =
      (ancestors ([] : Path)).reverse.flatMap
        (fun dir => (Except.toOption (dir_candidates duplicateTripleSys dir)).getD []) ∧
    (([("x86_64-unknown-linux-gnu", dupManifestB)] :
        List (String × BuildInfo)).map Prod.fst).Nodup ∧
    alookup "x86_64-unknown-linux-gnu" [("x86_64-unknown-linux-gnu", dupManifestB)] =
      Option.map Prod.snd
        ((successList duplicateTripleSys
            ((([["a", "conanbuildinfo.json"], ["b", "conanbuildinfo.json"],
                ["conanbuildinfo.json"]] : List Path) ++
              path_from_env duplicateTripleSys.vars).filter
              duplicateTripleSys.pathExists)).reverse.find?
          (fun q => q.1 == "x86_64-unknown-linux-gnu")) :=
  c7_same_triple_last_discovery_wins duplicateTripleSys []
    [["a", "conanbuildinfo.json"], ["b", "conanbuildinfo.json"], ["conanbuildinfo.json"]]
    [("x86_64-unknown-linux-gnu", dupManifestB)] "x86_64-unknown-linux-gnu" rfl rfl

end ConanBuild
